import Mathlib

/-!
Verification development for the rusti incremental execution engine
(`src/rusti/exec.rs`) and the crate-translation artifact bookkeeping
(`librustc_trans/lib.rs`).

The Rust code is shallowly embedded: external effects (the exit status of
the spawned `rustc` process, the bytes it prints, the compile state handed
to the driver callback) are inputs of the embedded functions, and the
observable actions of a function (files written, arguments passed,
diagnostics emitted) are part of its result.
-/

namespace Rusti

/-! ## ExecutionEngine (`src/rusti/exec.rs`, lines 37-90)

`ExecutionEngine { lib_paths, sysroot, counter }`; `counter` is the
generation counter, 0 at construction. -/

structure ExecutionEngine where
  lib_paths : List String
  sysroot : String
  counter : Nat
deriving DecidableEq, Repr

/-- `format!("./rusti_tmp_source_{}.dylib", counter)`: the artifact path for
one generation, derived from the generation counter. -/
def dylibFile (counter : Nat) : String :=
  "./rusti_tmp_source_" ++ toString counter ++ ".dylib"

/-- The externally observable actions of one `call_function_with_source`
call: the stale artifact removed, the source file written (name, contents),
the argument list handed to `rustc`, and the library/symbol loaded and
invoked on success (`None` when `rustc` failed). -/
structure EvalEffects where
  removedFile : String
  writtenFile : String × String
  args : List String
  loaded : Option (String × String)
deriving DecidableEq, Repr

/-- Process-wide state: the engine plus the dynamic libraries currently
loaded into the process address space.  `mem::forget(lib)` in the source
suppresses the `Library` drop, so the embedding has no operation that
removes an element from `loadedLibs`. -/
structure ProcessState where
  engine : ExecutionEngine
  loadedLibs : List String
deriving DecidableEq, Repr

/-- `ExecutionEngine::call_function_with_source`.  `rustcStatusOk` is the
success bit of `Command::new("rustc").args(args).status()`; the
`Library::new` / `lib.get` `unwrap()`s on the success path abort (panic)
instead of returning `false`, so the returned value models the
non-aborting runs.  On compiler failure the function returns `false`
before touching `counter` or loading anything; on success it loads the
fresh dylib, invokes `name`, forgets the handle and increments `counter`. -/
def call_function_with_source (st : ProcessState) (source name : String)
    (rustcStatusOk : Bool) : Bool × ProcessState × EvalEffects :=
  let dylib_file := dylibFile st.engine.counter
  let written := ("rusti_tmp_source.rs", source ++ "\n")
  let args : List String :=
    ["-L", ".",
     "--sysroot", st.engine.sysroot,
     "--crate-type", "dylib",
     "rusti_tmp_source.rs",
     "-o", dylib_file]
  if !rustcStatusOk then
    (false, st, ⟨dylib_file, written, args, none⟩)
  else
    (true,
     { engine := { st.engine with counter := st.engine.counter + 1 },
       loadedLibs := st.loadedLibs ++ [dylib_file] },
     ⟨dylib_file, written, args, some (dylib_file, name)⟩)

/-- A whole REPL session: fold `call_function_with_source` over a list of
submitted evaluations `(source, name, rustc exit ok)`. -/
def runEvals (st : ProcessState) (evals : List (String × String × Bool)) :
    ProcessState :=
  evals.foldl (fun s e => (call_function_with_source s e.1 e.2.1 e.2.2).2.1) st

/-- `ExecutionEngine::new`: a fresh engine has `counter = 0` and the process
has no rusti-loaded libraries yet. -/
def freshProcess (libs : List String) (sysroot : String) : ProcessState :=
  { engine := { lib_paths := libs, sysroot := sysroot, counter := 0 },
    loadedLibs := [] }

/-! ## Fault monitor (`src/rusti/exec.rs`, lines 186-225)

`monitor` runs the worker closure on a dedicated thread with its panic
output redirected into a shared buffer, joins it, and maps `Ok(r)` to
`Some(r)` and a panic payload to `None` after `handle_compiler_panic`.
The payload of an abnormal termination is a `Box<Any>`; the handler only
probes it with `is::<errors::FatalError>()` and `is::<errors::ExplicitBug>()`,
so the embedding keeps those two kinds plus an arbitrary `other`. -/

inductive PanicPayload where
  | fatalError
  | explicitBug
  | other (info : String)
deriving DecidableEq, Repr

/-- `e.is::<errors::FatalError>()`. -/
def PanicPayload.isFatalError : PanicPayload → Bool
  | .fatalError => true
  | _ => false

/-- `e.is::<errors::ExplicitBug>()`. -/
def PanicPayload.isExplicitBug : PanicPayload → Bool
  | .explicitBug => true
  | _ => false

/-- One user-visible output action of the panic handler: a diagnostic
emitted through a fresh stderr `Handler` (at level Bug), or the captured
buffer printed (`print!("{}", ...)`). -/
inductive OutputEvent where
  | emitDiag (msg : String)
  | flushBuffer (contents : String)
deriving DecidableEq, Repr

/-- `handle_compiler_panic(e, data)`: outside the `FatalError` case, first
synthesize an "unexpected panic" diagnostic unless the payload is an
`ExplicitBug`, then print the captured buffer; a `FatalError` payload is
dropped without any output. -/
def handle_compiler_panic (e : PanicPayload) (data : String) : List OutputEvent :=
  if !e.isFatalError then
    (if !e.isExplicitBug then [.emitDiag "unexpected panic"] else [])
      ++ [.flushBuffer data]
  else
    []

/-- Number of synthesized diagnostics in an output-event list. -/
def diagCount (evs : List OutputEvent) : Nat :=
  (evs.filter fun ev => match ev with | .emitDiag _ => true | _ => false).length

/-- Number of buffer flushes in an output-event list. -/
def flushCount (evs : List OutputEvent) : Nat :=
  (evs.filter fun ev => match ev with | .flushBuffer _ => true | _ => false).length

/-- `monitor(f)`: the worker's run is either a normal value or a panic
payload (the result of `handle.join()`); `data` is the captured diagnostic
buffer at join time.  Returns the monitor's return value together with the
output actions it performs.  The function is total: both outcomes yield a
value, i.e. an abnormal worker termination never propagates to the
caller. -/
def monitor {R : Type} (outcome : Except PanicPayload R) (data : String) :
    Option R × List OutputEvent :=
  match outcome with
  | .ok r => (some r, [])
  | .error e => (none, handle_compiler_panic e data)

/-! ## Toolchain locator (`src/rusti/exec.rs`, lines 144-160)

`get_sysroot` runs `rustc --print sysroot`.  The two failure exits are
panics in the source (`panic!("failed to run rustc: ...")` and
`expect("sysroot is not valid UTF-8")`); following the spec's error
taxonomy they are named `ToolchainNotFound` and `ToolchainOutputInvalid`
here.  The external world is an input: `none` when the binary cannot be
launched, `some none` when its stdout is not valid UTF-8, and
`some (some s)` for a decoded stdout `s` (as a character list, the model
of a Rust `&str`). -/

inductive ToolchainError where
  | ToolchainNotFound
  | ToolchainOutputInvalid
deriving DecidableEq, Repr

/-- The trimming predicate of `trim_right_matches(|c| c == '\r' || c == '\n')`. -/
def newlineChar (c : Char) : Bool := c == '\r' || c == '\n'

/-- `trim_right_matches` with `newlineChar`: remove every trailing `'\r'`
or `'\n'`. -/
def trimTrailingNewlines (s : List Char) : List Char :=
  (s.reverse.dropWhile newlineChar).reverse

/-- The suffix removed by `trimTrailingNewlines`. -/
def trimmedTail (s : List Char) : List Char :=
  (s.reverse.takeWhile newlineChar).reverse

/-- Whether a string still ends in a carriage return or newline. -/
def endsInNewline (s : List Char) : Bool :=
  match s.getLast? with
  | some c => newlineChar c
  | none => false

/-- `get_sysroot()`: spawn `rustc --print sysroot`; a spawn error is fatal
(`ToolchainNotFound`), non-UTF-8 stdout is fatal (`ToolchainOutputInvalid`),
otherwise the decoded stdout with all trailing line-ending characters
trimmed becomes the sysroot path.  There is no fallback path. -/
def get_sysroot (spawnResult : Option (Option (List Char))) :
    Except ToolchainError (List Char) :=
  match spawnResult with
  | none => .error .ToolchainNotFound
  | some none => .error .ToolchainOutputInvalid
  | some (some stdout) => .ok (trimTrailingNewlines stdout)

/-! ## In-process strategy (`src/rusti/exec.rs`, lines 92-131)

`with_tcx` injects a virtual file loader and a `CompilerCalls` that
configures the driver to stop after analysis and to store `f(tcx)` into a
shared `Rc<RefCell<Option<T>>>` slot.  `rustc_driver` itself is an
external collaborator; its observable contract is that it calls the
controller's after-analysis callback once with a `CompileState` whose
`tcx` field it supplies, so that state is an input of the embedding.
`Tcx` (rustc's `TyCtxt`) is an abstract type parameter. -/

/-- `MyFileLoader(String)`: the injected `syntax::codemap::FileLoader`. -/
structure MyFileLoader where
  contents : String
deriving DecidableEq, Repr

/-- `fn file_exists(&self, _path) -> bool { true }`. -/
def MyFileLoader.file_exists (_l : MyFileLoader) (_path : String) : Bool := true

/-- `fn abs_path(&self, _path) -> Option<PathBuf> { None }`. -/
def MyFileLoader.abs_path (_l : MyFileLoader) (_path : String) : Option String :=
  none

/-- `fn read_file(&self, _path) -> io::Result<String> { Ok(self.0.clone()) }`.
The `io::Error` side is opaque and modelled as a message string. -/
def MyFileLoader.read_file (l : MyFileLoader) (_path : String) :
    Except String String :=
  .ok l.contents

/-- `rustc_driver::Compilation`: whether the driver continues after a
phase. -/
inductive Compilation where
  | Continue
  | Stop
deriving DecidableEq, Repr

/-- The slice of `rustc_driver`'s `CompileState` that the callback uses:
`state.tcx : Option<TyCtxt>`. -/
structure CompileState (Tcx : Type) where
  tcx : Option Tcx

/-- The slice of `CompileController` configured by `build_controller`: the
after-analysis stop flag and callback.  The callback transforms the shared
result slot. -/
structure CompileController (Tcx T : Type) where
  after_analysis_stop : Compilation
  after_analysis_callback : CompileState Tcx → Option T → Option T

/-- `MyCb::build_controller`: stop after analysis, and on the
after-analysis callback overwrite the slot with `Some(f(state.tcx.unwrap()))`.
`unwrap()` on `None` aborts the worker; that branch (never reached at the
after-analysis phase, where the driver has a `tcx`) is modelled as leaving
the slot unchanged, and the theorems about it carry the `tcx = some _`
hypothesis. -/
def build_controller {Tcx T : Type} (f : Tcx → T) : CompileController Tcx T :=
  { after_analysis_stop := Compilation.Stop,
    after_analysis_callback := fun state res =>
      match state.tcx with
      | some t => some (f t)
      | none => res }

/-- The observable contract of the external `rustc_driver::run_compiler`
call with the controller built from `f` and the injected file loader:
starting from the empty result slot, run the after-analysis callback on
the compile state the driver supplies, and leave the final slot
contents. -/
def run_compiler {Tcx T : Type} (f : Tcx → T) (_loader : MyFileLoader)
    (driverState : CompileState Tcx) : Option T :=
  (build_controller f).after_analysis_callback driverState none

/-- `ExecutionEngine::with_tcx`: build the loader from the program text and
the callback from `f`, run the driver, and take the value out of the
shared slot (`take().unwrap()`; the abort on an empty slot is modelled by
the `Option`). -/
def with_tcx {Tcx T : Type} (prog : String) (f : Tcx → T)
    (driverState : CompileState Tcx) : Option T :=
  run_compiler f (MyFileLoader.mk prog) driverState

/-! ## Crate-translation artifacts (`librustc_trans/lib.rs`, lines 276-406)

The manifest types of the compiled-crate production side.  Types owned by
other rustc crates (`LinkMeta`, `EncodedMetadata`, `LinkerInfo`,
`NativeLibrary`, `CrateSource`, `LibSource`, `WorkProduct`, `CrateNum`)
are external collaborators and are modelled opaquely; `FxHashSet`/
`FxHashMap`/`Rc` become lists, association lists and plain values. -/

/-- External: `rustc::hir::def_id::CrateNum`, an index. -/
abbrev CrateNum := Nat

/-- External: `rustc::middle::cstore::LinkMeta`; `lib.rs` reads its
`crate_hash` field. -/
structure LinkMeta where
  crate_hash : Nat
deriving DecidableEq, Repr

/-- External: `rustc::middle::cstore::EncodedMetadata`, opaque here. -/
structure EncodedMetadata where
deriving DecidableEq, Repr

/-- External: `back::linker::LinkerInfo`, opaque here. -/
structure LinkerInfo where
deriving DecidableEq, Repr

/-- External: `rustc::middle::cstore::NativeLibrary`, opaque here. -/
structure NativeLibrary where
deriving DecidableEq, Repr

/-- External: `rustc::middle::cstore::CrateSource`, opaque here. -/
structure CrateSource where
deriving DecidableEq, Repr

/-- External: `rustc::middle::cstore::LibSource`, opaque here. -/
structure LibSource where
deriving DecidableEq, Repr

/-- External: `rustc::dep_graph::WorkProduct`, an opaque reference to a
previously produced build output. -/
structure WorkProduct where
deriving DecidableEq, Repr

/-- `enum ModuleKind { Regular, Metadata, Allocator }`. -/
inductive ModuleKind where
  | Regular
  | Metadata
  | Allocator
deriving DecidableEq, Repr

/-- `struct CompiledModule` (paths as strings). -/
structure CompiledModule where
  name : String
  llmod_id : String
  kind : ModuleKind
  pre_existing : Bool
  object : Option String
  bytecode : Option String
  bytecode_compressed : Option String
deriving DecidableEq, Repr

/-- `struct CrateInfo` (lines 393-406): misc info loaded from metadata. -/
structure CrateInfo where
  panic_runtime : Option CrateNum
  compiler_builtins : Option CrateNum
  profiler_runtime : Option CrateNum
  sanitizer_runtime : Option CrateNum
  is_no_builtins : List CrateNum
  native_libraries : List (CrateNum × List NativeLibrary)
  crate_name : List (CrateNum × String)
  used_libraries : List NativeLibrary
  link_args : List String
  used_crate_source : List (CrateNum × CrateSource)
  used_crates_static : List (CrateNum × LibSource)
  used_crates_dynamic : List (CrateNum × LibSource)
deriving DecidableEq, Repr

/-- `struct CrateTranslation` (lines 380-390): the compiled-crate
manifest.  The dedicated `metadata_module` field is mandatory (exactly one
per value) and `allocator_module` is an `Option` (zero or one per value);
the `modules` list holds the remaining compiled modules. -/
structure CrateTranslation where
  crate_name : String
  modules : List CompiledModule
  allocator_module : Option CompiledModule
  metadata_module : CompiledModule
  link : LinkMeta
  metadata : EncodedMetadata
  windows_subsystem : Option String
  linker_info : LinkerInfo
  crate_info : CrateInfo
deriving DecidableEq, Repr

/-- All compiled modules a manifest carries: the mandatory metadata slot,
the optional allocator slot, and the ordinary module list. -/
def CrateTranslation.allManifestModules (ct : CrateTranslation) :
    List CompiledModule :=
  ct.metadata_module :: (ct.allocator_module.toList ++ ct.modules)

/-- Number of modules of a given kind in a manifest, counted by kind
tag over everything the manifest carries. -/
def kindCount (ct : CrateTranslation) (k : ModuleKind) : Nat :=
  (ct.allManifestModules.filter fun m => m.kind == k).length

/-- An empty `CrateInfo`, for building concrete manifests. -/
def emptyCrateInfo : CrateInfo :=
  ⟨none, none, none, none, [], [], [], [], [], [], [], []⟩

/-- A concrete module tagged `Metadata`. -/
def metaTaggedModule : CompiledModule :=
  ⟨"crate.metadata", "crate.metadata", ModuleKind.Metadata, false, none, none, none⟩

/-- A legal value of `CrateTranslation` whose ordinary-module list also
holds a `Metadata`-tagged module: nothing in the type forbids it. -/
def doubleMetadataManifest : CrateTranslation :=
  { crate_name := "c",
    modules := [metaTaggedModule],
    allocator_module := none,
    metadata_module := metaTaggedModule,
    link := ⟨0⟩,
    metadata := ⟨⟩,
    windows_subsystem := none,
    linker_info := ⟨⟩,
    crate_info := emptyCrateInfo }

/-- A manifest whose kind tags agree with its slots. -/
def consistentManifest : CrateTranslation :=
  { crate_name := "c",
    modules := [⟨"m", "m", ModuleKind.Regular, false, none, none, none⟩],
    allocator_module := some ⟨"a", "a", ModuleKind.Allocator, false, none, none, none⟩,
    metadata_module := ⟨"md", "md", ModuleKind.Metadata, false, none, none, none⟩,
    link := ⟨0⟩,
    metadata := ⟨⟩,
    windows_subsystem := none,
    linker_info := ⟨⟩,
    crate_info := emptyCrateInfo }

/-! ### `ModuleLlvm` and its `Drop` (`librustc_trans/lib.rs`, lines 360-378)

A freshly translated module owns three native handles (context, module,
target machine), modelled as numeric handle identities. -/

/-- `struct ModuleLlvm { llcx, llmod, tm }`. -/
structure ModuleLlvm where
  llcx : Nat
  llmod : Nat
  tm : Nat
deriving DecidableEq, Repr

/-- The three native handles a live `ModuleLlvm` owns. -/
def ModuleLlvm.handles (m : ModuleLlvm) : List Nat :=
  [m.llcx, m.llmod, m.tm]

/-- One native disposal call made by `Drop for ModuleLlvm`. -/
inductive LlvmCall where
  | LLVMDisposeModule (h : Nat)
  | LLVMContextDispose (h : Nat)
  | LLVMRustDisposeTargetMachine (h : Nat)
deriving DecidableEq, Repr

/-- The handle a disposal call releases. -/
def LlvmCall.handle : LlvmCall → Nat
  | .LLVMDisposeModule h => h
  | .LLVMContextDispose h => h
  | .LLVMRustDisposeTargetMachine h => h

/-- The body of `Drop for ModuleLlvm`, as its sequence of native calls:
dispose the module, then the context, then the target machine. -/
def ModuleLlvm.dropCalls (m : ModuleLlvm) : List LlvmCall :=
  [.LLVMDisposeModule m.llmod, .LLVMContextDispose m.llcx,
   .LLVMRustDisposeTargetMachine m.tm]

/-- Dropping a live module: Rust runs the `Drop` impl exactly once and the
value then no longer exists, so the lifecycle state after the drop is
`none`.  Returns the native calls made together with the post state. -/
def dropModule (m : ModuleLlvm) : List LlvmCall × Option ModuleLlvm :=
  (m.dropCalls, none)

/-- The native handles still retained by a lifecycle state. -/
def retainedHandles : Option ModuleLlvm → List Nat
  | some m => m.handles
  | none => []

/-! ## Helper lemmas -/

theorem runEvals_success (evals : List (String × String × Bool)) :
    ∀ st : ProcessState, (∀ e ∈ evals, e.2.2 = true) →
      (runEvals st evals).engine.counter = st.engine.counter + evals.length ∧
      (runEvals st evals).loadedLibs =
        st.loadedLibs ++ (List.range' st.engine.counter evals.length).map dylibFile := by
  induction evals with
  | nil => intro st _; simp [runEvals]
  | cons e t ih =>
    intro st h
    have he : e.2.2 = true := h e (List.mem_cons_self e t)
    have ht : ∀ x ∈ t, x.2.2 = true := fun x hx => h x (List.mem_cons_of_mem e hx)
    have step :
        (call_function_with_source st e.1 e.2.1 e.2.2).2.1 =
          { engine := { st.engine with counter := st.engine.counter + 1 },
            loadedLibs := st.loadedLibs ++ [dylibFile st.engine.counter] } := by
      rw [he]; rfl
    have hrun : runEvals st (e :: t) =
        runEvals { engine := { st.engine with counter := st.engine.counter + 1 },
                   loadedLibs := st.loadedLibs ++ [dylibFile st.engine.counter] } t := by
      show runEvals ((call_function_with_source st e.1 e.2.1 e.2.2).2.1) t = _
      rw [step]
    rcases ih { engine := { st.engine with counter := st.engine.counter + 1 },
                loadedLibs := st.loadedLibs ++ [dylibFile st.engine.counter] } ht with ⟨hc, hl⟩
    constructor
    · rw [hrun, hc]; simp; omega
    · rw [hrun, hl]
      simp [List.range'_succ]

theorem runEvals_libs_grow (evals : List (String × String × Bool)) :
    ∀ st : ProcessState, ∃ newLibs : List String,
      (runEvals st evals).loadedLibs = st.loadedLibs ++ newLibs := by
  induction evals with
  | nil => intro st; exact ⟨[], by simp [runEvals]⟩
  | cons e t ih =>
    intro st
    have hrun : runEvals st (e :: t) =
        runEvals (call_function_with_source st e.1 e.2.1 e.2.2).2.1 t := rfl
    rcases ih (call_function_with_source st e.1 e.2.1 e.2.2).2.1 with ⟨libs, hlibs⟩
    cases hok : e.2.2 with
    | false =>
      refine ⟨libs, ?_⟩
      rw [hrun, hlibs, hok]
      rfl
    | true =>
      refine ⟨dylibFile st.engine.counter :: libs, ?_⟩
      rw [hrun, hlibs, hok]
      simp [call_function_with_source]

theorem trim_decomp (s : List Char) :
    s = trimTrailingNewlines s ++ trimmedTail s := by
  have h := @List.takeWhile_append_dropWhile Char newlineChar s.reverse
  calc s = s.reverse.reverse := (List.reverse_reverse s).symm
    _ = (s.reverse.takeWhile newlineChar ++ s.reverse.dropWhile newlineChar).reverse := by
        rw [h]
    _ = trimTrailingNewlines s ++ trimmedTail s := by
        rw [List.reverse_append]; rfl

theorem trimmedTail_all_newline (s : List Char) :
    (trimmedTail s).all newlineChar = true := by
  rw [List.all_eq_true]
  intro c hc
  rw [trimmedTail, List.mem_reverse] at hc
  exact List.mem_takeWhile_imp hc

theorem head_dropWhile_not (p : Char → Bool) :
    ∀ l : List Char, ∀ c, (l.dropWhile p).head? = some c → p c = false := by
  intro l
  induction l with
  | nil => intro c h; simp [List.dropWhile] at h
  | cons a t ih =>
    intro c h
    rw [List.dropWhile_cons] at h
    by_cases hp : p a = true
    · rw [if_pos hp] at h; exact ih c h
    · rw [if_neg hp] at h
      simp at h
      rw [← h]
      simpa using hp

theorem trim_not_endsInNewline (s : List Char) :
    endsInNewline (trimTrailingNewlines s) = false := by
  rw [endsInNewline]
  cases hl : (trimTrailingNewlines s).getLast? with
  | none => rfl
  | some c =>
    rw [trimTrailingNewlines, List.getLast?_reverse] at hl
    exact head_dropWhile_not newlineChar s.reverse c hl

theorem dylibFile_length (n : Nat) :
    (dylibFile n).length = 19 + (toString n).length + 6 := by
  rw [dylibFile, String.length_append, String.length_append]
  have h1 : "./rusti_tmp_source_".length = 19 := rfl
  have h2 : ".dylib".length = 6 := rfl
  rw [h1, h2]

theorem dylibFile_ne_extern (n : Nat) : dylibFile n ≠ "--extern" := by
  intro h
  have hl := congrArg String.length h
  rw [dylibFile_length] at hl
  have h8 : ("--extern" : String).length = 8 := rfl
  rw [h8] at hl
  omega

theorem dylibFile_ne_crate_name (n : Nat) : dylibFile n ≠ "--crate-name" := by
  intro h
  have hl := congrArg String.length h
  rw [dylibFile_length] at hl
  have h12 : ("--crate-name" : String).length = 12 := rfl
  rw [h12] at hl
  omega

/-! ## Claim theorems -/

/-- Claim C1: for every closure run under the fault monitor, a normal
completion with value `r` makes the monitor return `Some r` (with no
output of its own), and an abnormal termination makes it return `None`
after handling the payload through `handle_compiler_panic`; in both cases
the monitor returns to its caller (it is a total function), so the
abnormal termination never propagates. -/
theorem monitor_contains_worker_fault {R : Type}
    (outcome : Except PanicPayload R) (data : String) :
    (∀ r : R, outcome = .ok r → monitor outcome data = (some r, [])) ∧
    (∀ e : PanicPayload, outcome = .error e →
      monitor outcome data = (none, handle_compiler_panic e data)) := by
  constructor
  · intro r h; subst h; rfl
  · intro e h; subst h; rfl

/-- Witness for C1: the monitor at a concrete normal completion and at a
concrete abnormal termination. -/
theorem monitor_contains_worker_fault_witness :
    monitor (Except.ok 7 : Except PanicPayload Nat) "buf" = (some 7, []) ∧
    monitor (Except.error PanicPayload.fatalError : Except PanicPayload Nat) "buf"
      = (none, handle_compiler_panic PanicPayload.fatalError "buf") :=
  ⟨(monitor_contains_worker_fault (Except.ok 7) "buf").1 7 rfl,
   (monitor_contains_worker_fault
      (Except.error PanicPayload.fatalError) "buf").2 PanicPayload.fatalError rfl⟩

/-- Claim C2 counterexample: for the recognized fatal-error payload the
handler emits nothing at all — in particular the captured diagnostic
buffer is NOT flushed, contradicting "in all abnormal-termination cases,
the captured diagnostic buffer is flushed to the user-visible channel"
(the `print!` of the buffer sits inside the `!is::<FatalError>()`
branch). -/
theorem fatal_error_skips_flush_counterexample :
    handle_compiler_panic PanicPayload.fatalError "captured output" = [] ∧
    flushCount (handle_compiler_panic PanicPayload.fatalError "captured output") = 0 := by
  constructor <;> rfl

/-- Claim C2 (amended): the two recognized payload kinds produce no
synthesized diagnostic and any other kind produces exactly one; the
captured buffer is flushed for every payload except the fatal-error kind,
which is swallowed with no output at all. -/
theorem handle_panic_diag_and_flush (e : PanicPayload) (data : String) :
    diagCount (handle_compiler_panic e data) =
      (if e.isFatalError || e.isExplicitBug then 0 else 1) ∧
    flushCount (handle_compiler_panic e data) =
      (if e.isFatalError then 0 else 1) := by
  cases e <;>
    simp [handle_compiler_panic, diagCount, flushCount,
      PanicPayload.isFatalError, PanicPayload.isExplicitBug]

/-- Claim C3: a `call_function_with_source` whose external compiler exits
with non-zero status returns `false` and leaves the whole process state —
in particular the generation counter — unchanged, so the same generation
slot is retried; a successful compile-load-invoke cycle returns `true` and
increments the counter by exactly one; and from a fresh engine, a session
of `k` successful evaluations ends with counter `k`, the generations
(artifact paths) assigned in submission order `0, 1, ..., k-1`. -/
theorem generation_counter_evolution (st : ProcessState) (source name : String) :
    (call_function_with_source st source name false).1 = false ∧
    (call_function_with_source st source name false).2.1 = st ∧
    (call_function_with_source st source name true).1 = true ∧
    (call_function_with_source st source name true).2.1.engine.counter
      = st.engine.counter + 1 ∧
    (∀ (libs : List String) (sys : String)
       (evals : List (String × String × Bool)),
      (∀ e ∈ evals, e.2.2 = true) →
      (runEvals (freshProcess libs sys) evals).engine.counter = evals.length ∧
      (runEvals (freshProcess libs sys) evals).loadedLibs
        = (List.range evals.length).map dylibFile) := by
  refine ⟨rfl, rfl, rfl, rfl, ?_⟩
  intro libs sys evals h
  rcases runEvals_success evals (freshProcess libs sys) h with ⟨hc, hl⟩
  constructor
  · rw [hc]; simp [freshProcess]
  · rw [hl]; simp [freshProcess, List.range_eq_range']

/-- Witness for C3: a fresh engine, two successful evaluations: counter 2,
artifacts in submission order. -/
theorem generation_counter_evolution_witness :
    (∀ e ∈ [("a", "f", true), ("b", "g", true)],
      (e : String × String × Bool).2.2 = true) ∧
    ((runEvals (freshProcess [] "/sys")
        [("a", "f", true), ("b", "g", true)]).engine.counter
      = [("a", "f", true), ("b", "g", true)].length ∧
     (runEvals (freshProcess [] "/sys")
        [("a", "f", true), ("b", "g", true)]).loadedLibs
      = (List.range [("a", "f", true), ("b", "g", true)].length).map dylibFile) :=
  ⟨by decide,
   (generation_counter_evolution (freshProcess [] "/sys") "a" "f").2.2.2.2
     [] "/sys" [("a", "f", true), ("b", "g", true)] (by decide)⟩

/-- Claim C4 counterexample: at generation 1 (one prior generation in the
chain) the argument list passed to `rustc` contains zero `--extern`
dependency entries — not one per prior generation — and no crate-name
argument at all. -/
theorem rustc_args_no_extern_counterexample :
    ((call_function_with_source
        ⟨⟨[], "/sys", 1⟩, [dylibFile 0]⟩ "x" "f" true).2.2.args.count "--extern"
      = 0) ∧
    ("--crate-name" ∉
      (call_function_with_source
        ⟨⟨[], "/sys", 1⟩, [dylibFile 0]⟩ "x" "f" true).2.2.args) := by
  constructor
  · rfl
  · decide

/-- Claim C4 (amended): for every generation the argument list passed to
the external compiler is the fixed nine-element vector `-L .`,
`--sysroot <sysroot>`, `--crate-type dylib`, the fixed source file name,
and `-o` with the output path derived from the generation counter; it
contains no `--extern` dependency entry for any prior generation and no
crate-name argument (provided the configured sysroot path is not itself
one of those literal flags). -/
theorem rustc_args_characterization (st : ProcessState) (source name : String)
    (ok : Bool) (hs1 : st.engine.sysroot ≠ "--extern")
    (hs2 : st.engine.sysroot ≠ "--crate-name") :
    (call_function_with_source st source name ok).2.2.args =
      ["-L", ".", "--sysroot", st.engine.sysroot, "--crate-type", "dylib",
       "rusti_tmp_source.rs", "-o", dylibFile st.engine.counter] ∧
    (call_function_with_source st source name ok).2.2.args.count "--extern" = 0 ∧
    "--crate-name" ∉ (call_function_with_source st source name ok).2.2.args := by
  have hargs : (call_function_with_source st source name ok).2.2.args =
      ["-L", ".", "--sysroot", st.engine.sysroot, "--crate-type", "dylib",
       "rusti_tmp_source.rs", "-o", dylibFile st.engine.counter] := by
    cases ok <;> rfl
  refine ⟨hargs, ?_, ?_⟩
  · rw [hargs]
    simp [List.count_cons, hs1, dylibFile_ne_extern st.engine.counter]
  · rw [hargs]
    intro hmem
    simp [List.mem_cons] at hmem
    rcases hmem with h | h
    · exact hs2 h.symm
    · exact dylibFile_ne_crate_name st.engine.counter h.symm

/-- Witness for C4 (amended): a concrete engine at generation 1. -/
theorem rustc_args_characterization_witness :
    (("/sys" : String) ≠ "--extern" ∧ ("/sys" : String) ≠ "--crate-name") ∧
    ((call_function_with_source
        ⟨⟨[], "/sys", 1⟩, [dylibFile 0]⟩ "x" "f" true).2.2.args =
      ["-L", ".", "--sysroot", "/sys", "--crate-type", "dylib",
       "rusti_tmp_source.rs", "-o", dylibFile 1] ∧
     (call_function_with_source
        ⟨⟨[], "/sys", 1⟩, [dylibFile 0]⟩ "x" "f" true).2.2.args.count "--extern"
       = 0 ∧
     "--crate-name" ∉
       (call_function_with_source
         ⟨⟨[], "/sys", 1⟩, [dylibFile 0]⟩ "x" "f" true).2.2.args) :=
  ⟨⟨by decide, by decide⟩,
   rustc_args_characterization ⟨⟨[], "/sys", 1⟩, [dylibFile 0]⟩ "x" "f" true
     (by decide) (by decide)⟩

/-- Claim C5 counterexample: at generation 1 with body `"x"`, the
compilation unit written for the compiler is exactly `"x\n"`, and it
admits no decomposition into a nonempty auto-generated prelude followed
by the verbatim body (and a remainder) — so no prelude importing
generation 0's namespace exists in it. -/
theorem no_prelude_counterexample :
    (call_function_with_source
        ⟨⟨[], "/sys", 1⟩, [dylibFile 0]⟩ "x" "f" true).2.2.writtenFile
      = ("rusti_tmp_source.rs", "x\n") ∧
    ¬ ∃ (p r : String), p ≠ "" ∧
      (call_function_with_source
          ⟨⟨[], "/sys", 1⟩, [dylibFile 0]⟩ "x" "f" true).2.2.writtenFile.2
        = p ++ "x" ++ r := by
  refine ⟨rfl, ?_⟩
  rintro ⟨p, r, hp, heq⟩
  have hunit : (call_function_with_source
      ⟨⟨[], "/sys", 1⟩, [dylibFile 0]⟩ "x" "f" true).2.2.writtenFile.2 = "x\n" := rfl
  rw [hunit] at heq
  have hdata := congrArg String.data heq
  rw [String.data_append, String.data_append] at hdata
  have hxn : ("x\n" : String).data = ['x', '\n'] := rfl
  have hx : ("x" : String).data = ['x'] := rfl
  rw [hxn, hx] at hdata
  have hpd : p.data ≠ [] := by
    intro hnil
    exact hp (String.ext hnil)
  have hlen := congrArg List.length hdata
  rw [List.length_append, List.length_append] at hlen
  have h2 : (['x', '\n'] : List Char).length = 2 := rfl
  have h1 : (['x'] : List Char).length = 1 := rfl
  rw [h2, h1] at hlen
  have hppos : 0 < p.data.length := List.length_pos.mpr hpd
  have hp1 : p.data.length = 1 := by omega
  have hr0 : r.data.length = 0 := by omega
  rcases List.length_eq_one.mp hp1 with ⟨c, hc⟩
  have hr : r.data = [] := List.length_eq_zero.mp hr0
  rw [hc, hr] at hdata
  simp at hdata

/-- Claim C5 (amended): for every evaluation, at every generation, the
compilation unit handed to the compiler is exactly the verbatim
user-submitted body followed by a single newline (the `writeln!`): no
prelude is generated and no prior generation's namespace is imported —
the unit does not depend on the generation counter at all. -/
theorem compilation_unit_verbatim_body (st : ProcessState)
    (source name : String) (ok : Bool) :
    (call_function_with_source st source name ok).2.2.writtenFile
      = ("rusti_tmp_source.rs", source ++ "\n") := by
  cases ok <;> rfl

/-- Claim C6: toolchain discovery asks the external compiler for its
sysroot and returns its standard output with every trailing carriage
return and newline trimmed (the trimmed result no longer ends in such a
character, and what was removed consisted of such characters only); when
the binary cannot be launched it fails with `ToolchainNotFound`, and when
the output is not valid text it fails with `ToolchainOutputInvalid` —
there is no fallback: those are the only three outcomes of
`get_sysroot`. -/
theorem sysroot_resolution (s : List Char) :
    get_sysroot none = .error .ToolchainNotFound ∧
    get_sysroot (some none) = .error .ToolchainOutputInvalid ∧
    get_sysroot (some (some s)) = .ok (trimTrailingNewlines s) ∧
    s = trimTrailingNewlines s ++ trimmedTail s ∧
    (trimmedTail s).all newlineChar = true ∧
    endsInNewline (trimTrailingNewlines s) = false :=
  ⟨rfl, rfl, rfl, trim_decomp s, trimmedTail_all_newline s,
   trim_not_endsInNewline s⟩

/-- Claim C7: loaded dynamic-library handles are never unloaded.  A single
evaluation only ever appends to the set of loaded libraries, and across
any sequence of subsequent evaluations (successful or failed) the loaded
set only grows: every library loaded before is still loaded after.  The
step function has no operation removing a loaded library (`mem::forget`
suppresses the only drop in the source). -/
theorem loaded_libs_never_unloaded (st : ProcessState) (source name : String)
    (ok : Bool) (evals : List (String × String × Bool)) :
    (∃ n : List String,
      (call_function_with_source st source name ok).2.1.loadedLibs
        = st.loadedLibs ++ n) ∧
    (∃ newLibs : List String,
      (runEvals st evals).loadedLibs = st.loadedLibs ++ newLibs) ∧
    (∀ lib ∈ st.loadedLibs, lib ∈ (runEvals st evals).loadedLibs) := by
  refine ⟨?_, runEvals_libs_grow evals st, ?_⟩
  · cases ok
    · exact ⟨[], by simp [call_function_with_source]⟩
    · exact ⟨[dylibFile st.engine.counter], rfl⟩
  · intro lib hlib
    rcases runEvals_libs_grow evals st with ⟨newLibs, hnew⟩
    rw [hnew]
    exact List.mem_append_left newLibs hlib

/-- Witness for C7: a library loaded by a first successful evaluation is
still loaded after two further evaluations (one failed, one
successful). -/
theorem loaded_libs_never_unloaded_witness :
    dylibFile 0 ∈ (⟨⟨[], "/sys", 1⟩, [dylibFile 0]⟩ : ProcessState).loadedLibs ∧
    dylibFile 0 ∈ (runEvals ⟨⟨[], "/sys", 1⟩, [dylibFile 0]⟩
      [("y", "g", false), ("z", "h", true)]).loadedLibs :=
  ⟨List.mem_cons_self _ _,
   (loaded_libs_never_unloaded ⟨⟨[], "/sys", 1⟩, [dylibFile 0]⟩ "y" "g" false
      [("y", "g", false), ("z", "h", true)]).2.2 (dylibFile 0)
     (List.mem_cons_self _ _)⟩

/-- Claim C8: the file provider injected by `with_tcx` reports that every
path exists and returns the program text as the content of any path read;
the controller built for the driver stops compilation after the analysis
phase; and the callback's result `f tcx` is stored into the shared result
slot and handed back synchronously as `with_tcx`'s return value. -/
theorem with_tcx_contract (Tcx T : Type) (prog : String) (f : Tcx → T)
    (driverState : CompileState Tcx) (t : Tcx)
    (h : driverState.tcx = some t) :
    (∀ path, (MyFileLoader.mk prog).file_exists path = true) ∧
    (∀ path, (MyFileLoader.mk prog).read_file path = .ok prog) ∧
    (@build_controller Tcx T f).after_analysis_stop = Compilation.Stop ∧
    run_compiler f (MyFileLoader.mk prog) driverState = some (f t) ∧
    with_tcx prog f driverState = some (f t) := by
  refine ⟨fun _ => rfl, fun _ => rfl, rfl, ?_, ?_⟩ <;>
    simp [with_tcx, run_compiler, build_controller, h]

/-- Witness for C8: concrete driver state with a present typed context. -/
theorem with_tcx_contract_witness :
    (CompileState.mk (some 3) : CompileState Nat).tcx = some 3 ∧
    ((∀ path, (MyFileLoader.mk "prog").file_exists path = true) ∧
     (∀ path, (MyFileLoader.mk "prog").read_file path = .ok "prog") ∧
     (@build_controller Nat Nat Nat.succ).after_analysis_stop
       = Compilation.Stop ∧
     run_compiler Nat.succ (MyFileLoader.mk "prog") (CompileState.mk (some 3))
       = some 4 ∧
     with_tcx "prog" Nat.succ (CompileState.mk (some 3)) = some 4) :=
  ⟨rfl,
   with_tcx_contract Nat Nat "prog" Nat.succ (CompileState.mk (some 3)) 3 rfl⟩

/-- Claim C9 counterexample: `doubleMetadataManifest` is a legal value of
the crate-translation result type whose ordinary-module list also carries
a `Metadata`-tagged module, so it contains two Metadata modules — the
"exactly one Metadata module" invariant does not hold for every value of
the type (the kind tags are unconstrained by the type). -/
theorem double_metadata_counterexample :
    kindCount doubleMetadataManifest ModuleKind.Metadata = 2 ∧
    kindCount doubleMetadataManifest ModuleKind.Metadata ≠ 1 := by
  constructor
  · rfl
  · decide

/-- Claim C9 (amended): the manifest type dedicates exactly one mandatory
slot to the metadata module and an optional slot to the allocator module,
so every value carries one metadata slot and at most one allocator
module; and whenever the kind tags agree with the slots (metadata slot
tagged `Metadata`, allocator slot tagged `Allocator`, ordinary modules
tagged `Regular` — which is how the translation side populates them), the
manifest contains exactly one `Metadata`-kind module and at most one
`Allocator`-kind module. -/
theorem manifest_module_slots (ct : CrateTranslation)
    (hmeta : ct.metadata_module.kind = ModuleKind.Metadata)
    (halloc : ∀ m ∈ ct.allocator_module.toList, m.kind = ModuleKind.Allocator)
    (hmods : ∀ m ∈ ct.modules, m.kind = ModuleKind.Regular) :
    ct.allManifestModules.length
      = 1 + ct.allocator_module.toList.length + ct.modules.length ∧
    ct.allocator_module.toList.length ≤ 1 ∧
    kindCount ct ModuleKind.Metadata = 1 ∧
    kindCount ct ModuleKind.Allocator ≤ 1 := by
  have hmodsMeta :
      ct.modules.filter (fun m => m.kind == ModuleKind.Metadata) = [] :=
    List.filter_eq_nil_iff.mpr (fun m hm => by simp [hmods m hm])
  have hmodsAlloc :
      ct.modules.filter (fun m => m.kind == ModuleKind.Allocator) = [] :=
    List.filter_eq_nil_iff.mpr (fun m hm => by simp [hmods m hm])
  refine ⟨?_, ?_, ?_, ?_⟩
  · simp [CrateTranslation.allManifestModules]
    omega
  · cases ct.allocator_module <;> simp
  · cases hao : ct.allocator_module with
    | none =>
      simp [kindCount, CrateTranslation.allManifestModules, hao, hmeta, hmodsMeta]
    | some a =>
      have ha : a.kind = ModuleKind.Allocator := halloc a (by simp [hao])
      simp [kindCount, CrateTranslation.allManifestModules, hao, hmeta, ha,
        hmodsMeta]
  · cases hao : ct.allocator_module with
    | none =>
      simp [kindCount, CrateTranslation.allManifestModules, hao, hmeta,
        hmodsAlloc]
    | some a =>
      simp [kindCount, CrateTranslation.allManifestModules, hao, hmeta,
        hmodsAlloc]
      rw [List.filter_cons]
      split <;> simp [hmodsAlloc]

/-- Witness for C9 (amended): the kind-consistent `consistentManifest`. -/
theorem manifest_module_slots_witness :
    (consistentManifest.metadata_module.kind = ModuleKind.Metadata ∧
     (∀ m ∈ consistentManifest.allocator_module.toList,
       m.kind = ModuleKind.Allocator) ∧
     (∀ m ∈ consistentManifest.modules, m.kind = ModuleKind.Regular)) ∧
    (consistentManifest.allManifestModules.length
       = 1 + consistentManifest.allocator_module.toList.length
           + consistentManifest.modules.length ∧
     consistentManifest.allocator_module.toList.length ≤ 1 ∧
     kindCount consistentManifest ModuleKind.Metadata = 1 ∧
     kindCount consistentManifest ModuleKind.Allocator ≤ 1) :=
  ⟨⟨rfl, by decide, by decide⟩,
   manifest_module_slots consistentManifest rfl (by decide) (by decide)⟩

/-- Claim C10: dropping a freshly translated module disposes its three
owned native handles together in the one `Drop` run — the handles
released are exactly the module's three handles, each disposed exactly
once — and afterwards the lifecycle state retains no handle (the value no
longer exists, so the disposal cannot run a second time). -/
theorem module_llvm_disposal (m : ModuleLlvm) (h : m.handles.Nodup) :
    ((dropModule m).1.map LlvmCall.handle).Perm m.handles ∧
    (∀ hd ∈ m.handles, ((dropModule m).1.map LlvmCall.handle).count hd = 1) ∧
    retainedHandles (dropModule m).2 = [] := by
  have hmap : (dropModule m).1.map LlvmCall.handle = [m.llmod, m.llcx, m.tm] := rfl
  simp only [ModuleLlvm.handles, List.nodup_cons, List.mem_cons,
    List.mem_singleton, List.not_mem_nil, or_false, not_or] at h
  obtain ⟨⟨hcm, hct⟩, hmt, -⟩ := h
  refine ⟨?_, ?_, rfl⟩
  · rw [hmap]
    exact List.Perm.swap m.llcx m.llmod [m.tm]
  · intro hd hmem
    rw [hmap]
    rw [ModuleLlvm.handles] at hmem
    simp only [List.mem_cons, List.mem_singleton, List.not_mem_nil, or_false]
      at hmem
    rcases hmem with rfl | rfl | rfl
    · simp [List.count_cons, hcm, hct]
    · simp [List.count_cons, Ne.symm hcm, hmt]
    · simp [List.count_cons, Ne.symm hct, Ne.symm hmt]

/-- Witness for C10: a module with three distinct handles. -/
theorem module_llvm_disposal_witness :
    (ModuleLlvm.mk 0 1 2).handles.Nodup ∧
    (((dropModule (ModuleLlvm.mk 0 1 2)).1.map LlvmCall.handle).Perm
       (ModuleLlvm.mk 0 1 2).handles ∧
     (∀ hd ∈ (ModuleLlvm.mk 0 1 2).handles,
       ((dropModule (ModuleLlvm.mk 0 1 2)).1.map LlvmCall.handle).count hd = 1) ∧
     retainedHandles (dropModule (ModuleLlvm.mk 0 1 2)).2 = []) :=
  ⟨by decide, module_llvm_disposal (ModuleLlvm.mk 0 1 2) (by decide)⟩

end Rusti
